import Mathlib

/-!
Verification development for the NeuroAviaConsultant service (`src/main.py`).

The program is a question-answering web service over a single reference
document.  Its state is two module-level globals (`total_requests_count`
and `vector_db`), a startup routine (`lifespan`) that fetches a Google
Doc, chunks it, embeds the chunks and builds a FAISS index, and three
request handlers: the landing page, `/ask` and `/stats`.

We embed the program shallowly: the globals become an explicit
`AppState`, every handler is a pure state-passing function, and each
external collaborator (HTTP fetch, similarity search, chat completion)
is a function parameter; the arguments handed to each collaborator are
recorded in the handler's outcome so that the calls the code makes (and
does not make) are observable in theorems.
-/

namespace NeuroAvia

/-! ## Vector index model

`vector_db` in the source is a FAISS store built by
`FAISS.from_documents`; the index structure itself lives in the FAISS
library, outside this repository, so its query is modelled from the
spec (brute-force nearest-neighbour with insertion-order tie-break). -/

/-- An embedding vector: an ordered sequence of numbers (exact integers
stand in for the floating-point coordinates; the determinism argument
only uses the order on distances). -/
abbrev Vec := List ℤ

/-- One indexed entry: an embedding vector together with the chunk text
it embeds. -/
structure Entry where
  vector : Vec
  text : String
deriving Repr, DecidableEq

/-- The vector index: an immutable-after-build ordered collection of
entries (insertion order = chunk order). -/
abbrev VectorIndex := List Entry

/-- Squared Euclidean distance between two vectors (exact). -/
def sqDist (v w : Vec) : ℤ :=
  ((v.zip w).map (fun p => (p.1 - p.2) ^ 2)).sum

/-- Modelled from the spec: the sort keys of a k-nearest-neighbour query
(the FAISS search itself is not part of this repository).  Each entry of
the index is keyed by its distance to the query vector paired with its
insertion index, so that ties are broken by insertion order. -/
def keysFor (idx : VectorIndex) (v : Vec) : List (ℤ × Nat) :=
  idx.enum.map (fun p => (sqDist v p.2.vector, p.1))

/-- Lexicographic order on (distance, insertion index) keys: smaller
distance first, insertion order breaking ties. -/
def keyLE (a b : ℤ × Nat) : Prop :=
  a.1 < b.1 ∨ (a.1 = b.1 ∧ a.2 ≤ b.2)

instance : DecidableRel keyLE := fun a b => by
  unfold keyLE; infer_instance

instance : IsTotal (ℤ × Nat) keyLE := by
  constructor
  intro a b
  rcases lt_trichotomy a.1 b.1 with h | h | h
  · exact Or.inl (Or.inl h)
  · rcases Nat.le_total a.2 b.2 with h2 | h2
    · exact Or.inl (Or.inr ⟨h, h2⟩)
    · exact Or.inr (Or.inr ⟨h.symm, h2⟩)
  · exact Or.inr (Or.inl h)

instance : IsTrans (ℤ × Nat) keyLE := by
  constructor
  intro a b c hab hbc
  rcases hab with h1 | ⟨h1, h1'⟩ <;> rcases hbc with h2 | ⟨h2, h2'⟩
  · exact Or.inl (h1.trans h2)
  · exact Or.inl (h2 ▸ h1)
  · exact Or.inl (h1 ▸ h2)
  · exact Or.inr ⟨h1.trans h2, h1'.trans h2'⟩

instance : IsAntisymm (ℤ × Nat) keyLE := by
  constructor
  intro a b hab hba
  rcases hab with h1 | ⟨h1, h1'⟩
  · rcases hba with h2 | ⟨h2, h2'⟩
    · exact absurd (h1.trans h2) (lt_irrefl _)
    · exact absurd h1 (h2 ▸ lt_irrefl _)
  · rcases hba with h2 | ⟨h2, h2'⟩
    · exact absurd h2 (h1 ▸ lt_irrefl _)
    · exact Prod.ext h1 (Nat.le_antisymm h1' h2')

/-- Modelled from the spec: the ordered key list of a k-nearest query —
all entries sorted by (distance, insertion index), first `k` kept.
`k` larger than the index is clamped by `take`; `k = 0` gives `[]`. -/
def querySortedKeys (idx : VectorIndex) (v : Vec) (k : Nat) : List (ℤ × Nat) :=
  ((keysFor idx v).insertionSort keyLE).take k

/-- Declarative characterisation of a k-nearest-neighbour result: some
total ordering of all the index keys that is sorted nearest-first (ties
by insertion order), truncated to `k`.  Any implementation of the query
must satisfy this. -/
def QuerySpec (idx : VectorIndex) (v : Vec) (k : Nat) (res : List (ℤ × Nat)) : Prop :=
  ∃ full : List (ℤ × Nat),
    List.Perm full (keysFor idx v) ∧ List.Sorted keyLE full ∧ res = full.take k

/-! ## Application state and the `/ask` handler (`src/main.py`)

The two module-level globals become an explicit record.  `vector_db`
starts as `None` and is set only by the startup routine. -/

/-- A retrieved document as returned by the similarity search
(langchain `Document`): only its `page_content` is used. -/
structure Doc where
  page_content : String
deriving Repr, DecidableEq

/-- The program's global mutable state: `total_requests_count` and
`vector_db` from `src/main.py`. -/
structure AppState where
  total_requests_count : Nat
  vector_db : Option VectorIndex
deriving Repr, DecidableEq

/-- The state at module load: counter `0`, no index. -/
def initialState : AppState :=
  { total_requests_count := 0, vector_db := none }

/-- The external collaborators consulted by the `/ask` handler.  Each is
a fallible call: `similarity_search` is the FAISS search over the built
index (it embeds the question internally), `chat_completion` is the
OpenAI chat call receiving the system and user prompts.  An `Except`
error models a raised exception, whose message is the string. -/
structure Oracle where
  similarity_search : String → Nat → Except String (List Doc)
  chat_completion : String → String → Except String String

/-- The HTTP-level result of a handler: a JSON answer or a raised
`HTTPException` with status code and detail. -/
inductive AskResponse where
  | answer (text : String)
  | httpError (status : Nat) (detail : String)
deriving Repr, DecidableEq

/-- What one `/ask` request did: the state it left behind, the response,
and a record of the arguments of each external call it made (`none`
when the call was never made). -/
structure AskOutcome where
  state : AppState
  response : AskResponse
  searchCall : Option (String × Nat)
  genCall : Option (String × String)
deriving Repr, DecidableEq

/-- The fixed system prompt of `src/main.py` (lines 189–194). -/
def system_prompt : String :=
  "Вы — сертифицированный эксперт по страхованию ответственности аэропортов. " ++
  "Говорите от первого лица как практикующий специалист. " ++
  "СТРОГО ЗАПРЕЩЕНО упоминать источники информации (никаких 'согласно документу' или 'в базе знаний'). " ++
  "Используйте ТОЛЬКО факты из контекста."

/-- Python's `str.strip()`: remove leading and trailing whitespace. -/
def pyStrip (s : String) : String :=
  String.mk (((s.toList.dropWhile Char.isWhitespace).reverse.dropWhile
    Char.isWhitespace).reverse)

/-- The context string built from the retrieved documents
(`src/main.py` line 186): each document's `page_content` is stripped of
leading and trailing whitespace, and the results are joined with a
blank line (`"\n\n"`). -/
def contextOf (docs : List Doc) : String :=
  String.intercalate "\n\n" (docs.map (fun d => pyStrip d.page_content))

/-- Stated from the spec's words, for comparison with `contextOf`: the
retrieved chunks' text joined in order, separated by a blank line (no
stripping mentioned). -/
def contextSpecJoin (docs : List Doc) : String :=
  String.intercalate "\n\n" (docs.map (fun d => d.page_content))

/-- The user prompt of `src/main.py` line 196. -/
def mkUserPrompt (context question : String) : String :=
  "Контекст:\n" ++ context ++ "\n\nВопрос клиента:\n" ++ question

/-- The `/ask` handler `ask_expert` (`src/main.py` lines 172–211):
increments the counter, rejects with 503 when `vector_db is None`,
otherwise searches with `k = 4`, builds the prompts, calls the chat
completion, and converts any exception in the `try` block into an
HTTP 500 whose detail carries the exception message. -/
def ask_expert (s : AppState) (o : Oracle) (question : String) : AskOutcome :=
  let s' : AppState := { s with total_requests_count := s.total_requests_count + 1 }
  match s.vector_db with
  | none =>
      { state := s', response := .httpError 503 "База знаний еще загружается",
        searchCall := none, genCall := none }
  | some _db =>
      match o.similarity_search question 4 with
      | .error e =>
          { state := s', response := .httpError 500 ("Ошибка обработки: " ++ e),
            searchCall := some (question, 4), genCall := none }
      | .ok docs =>
          let context := contextOf docs
          let user_prompt := mkUserPrompt context question
          match o.chat_completion system_prompt user_prompt with
          | .error e =>
              { state := s', response := .httpError 500 ("Ошибка обработки: " ++ e),
                searchCall := some (question, 4),
                genCall := some (system_prompt, user_prompt) }
          | .ok ans =>
              { state := s', response := .answer ans,
                searchCall := some (question, 4),
                genCall := some (system_prompt, user_prompt) }

/-- The `/stats` handler (`src/main.py` lines 214–222): returns the
counter (the timestamp field carries no program state) and leaves the
state untouched. -/
def get_stats (s : AppState) : Nat × AppState :=
  (s.total_requests_count, s)

/-- The landing page handler (`src/main.py` lines 89–170): renders HTML
that interpolates the counter and leaves the state untouched.  We model
the observable value it reads and the unchanged state. -/
def root_page (s : AppState) : Nat × AppState :=
  (s.total_requests_count, s)

/-! ## Document loading (`load_document_text`, `src/main.py` lines 30–43)

The function searches the URL for the regex `/d/([a-zA-Z0-9-_]+)`,
raises `ValueError` when it does not match, and otherwise fetches the
plain-text export of the first matched document id, raising on an HTTP
error status (`raise_for_status`, i.e. status ≥ 400; redirects are
followed by the client). -/

/-- Characters matched by the regex class `[a-zA-Z0-9-_]`. -/
def docIdCharOk (c : Char) : Bool :=
  c.isAlpha || c.isDigit || c = '-' || c = '_'

/-- Greedy run of id characters (the `+` of the regex). -/
def takeIdChars : List Char → List Char
  | [] => []
  | c :: cs => if docIdCharOk c then c :: takeIdChars cs else []

/-- Leftmost match of `/d/([a-zA-Z0-9-_]+)` (`re.search` semantics): at
each position try the literal `/d/` followed by at least one id
character; on success capture the maximal run, otherwise move one
character right. -/
def findDocId : List Char → Option (List Char)
  | [] => none
  | c :: cs =>
      match c, cs with
      | '/', 'd' :: '/' :: d :: rest =>
          if docIdCharOk d then some (d :: takeIdChars rest)
          else findDocId cs
      | _, _ => findDocId cs

/-- The export URL built for a document id (`src/main.py` line 37). -/
def exportUrlFor (doc_id : String) : String :=
  "https://docs.google.com/document/d/" ++ doc_id ++ "/export?format=txt"

/-- An HTTP response as seen by `load_document_text`: status and body. -/
structure HttpResponse where
  status : Nat
  text : String
deriving Repr, DecidableEq

/-- Errors `load_document_text` can raise: the `ValueError` for a bad
link, or the `HTTPStatusError` from `raise_for_status`. -/
inductive LoadError where
  | valueError (msg : String)
  | httpStatusError (status : Nat)
deriving Repr, DecidableEq

/-- What one call to `load_document_text` did: its result and the URL
it fetched, `none` when no network request was made. -/
structure LoadOutcome where
  result : Except LoadError String
  fetchedUrl : Option String
deriving Repr

/-- `load_document_text` (`src/main.py` lines 30–43), with the network
client abstracted as a function from URL to response.  `raise_for_status`
raises exactly on client/server error statuses (≥ 400). -/
def load_document_text (http : String → HttpResponse) (url : String) : LoadOutcome :=
  match findDocId url.toList with
  | none =>
      { result := .error (.valueError "Некорректная ссылка на Google Doc"),
        fetchedUrl := none }
  | some idChars =>
      let export_url := exportUrlFor (String.mk idChars)
      let resp := http export_url
      if 400 ≤ resp.status then
        { result := .error (.httpStatusError resp.status), fetchedUrl := some export_url }
      else
        { result := .ok resp.text, fetchedUrl := some export_url }

/-! ## Startup (`lifespan`, `src/main.py` lines 47–71)

The `try` body runs: fetch the document text, split it with
`RecursiveCharacterTextSplitter(chunk_size=1000, chunk_overlap=200)`,
embed the chunks, build the FAISS index, and assign `vector_db`.  Any
exception is caught, printed, and startup continues with `vector_db`
left unset.  The splitter and the embedding/index construction live in
external libraries, so they are parameters of the model; what the
repository's code fixes is which parameters they are called with and in
which order. -/

/-- The chunk size hard-coded at `src/main.py` line 55 — the only place
in the program where it appears. -/
def chunk_size : Nat := 1000

/-- The chunk overlap hard-coded at `src/main.py` line 55 — the only
place in the program where it appears. -/
def chunk_overlap : Nat := 200

/-- The body of the startup `try` block: fetch, then split with the
fixed `(chunk_size, chunk_overlap)`, then embed, then build the index
by pairing each chunk with its vector in order.  Any step may raise,
and a raised exception propagates out of the block. -/
def startupBuild (splitter : Nat → Nat → String → List String)
    (fetch : Except String String)
    (embedAll : List String → Except String (List Vec)) :
    Except String VectorIndex :=
  match fetch with
  | .error e => .error e
  | .ok raw_text =>
    let source_chunks := splitter chunk_size chunk_overlap raw_text
    match embedAll source_chunks with
    | .error e => .error e
    | .ok vecs =>
        .ok ((vecs.zip source_chunks).map (fun p => { vector := p.1, text := p.2 }))

/-- What the startup did: the resulting global state and the error it
logged, if any. -/
structure StartupOutcome where
  state : AppState
  loggedError : Option String
deriving Repr, DecidableEq

/-- The startup section of `lifespan` (`src/main.py` lines 49–62): on
success assign `vector_db`; on any exception log it and continue — the
function is total, so the process never dies, and the state is
otherwise untouched. -/
def lifespan_startup (build : Except String VectorIndex) (s : AppState) : StartupOutcome :=
  match build with
  | .ok idx => { state := { s with vector_db := some idx }, loggedError := none }
  | .error e => { state := s, loggedError := some e }

/-! ## Requests over time -/

/-- One inbound request to the running service. -/
inductive Request where
  | root
  | stats
  | ask (question : String)
deriving Repr, DecidableEq

/-- Whether a request is an `/ask` request. -/
def Request.isAsk : Request → Bool
  | .ask _ => true
  | _ => false

/-- Serving one request: the landing page and `/stats` only read the
state; `/ask` runs `ask_expert`. -/
def step (o : Oracle) (s : AppState) : Request → AppState
  | .root => (root_page s).2
  | .stats => (get_stats s).2
  | .ask q => (ask_expert s o q).state

/-- Serving a sequence of requests in order. -/
def run (o : Oracle) (s : AppState) (reqs : List Request) : AppState :=
  reqs.foldl (step o) s

/-! ## Concrete fixtures for evaluation -/

/-- Three entries with known embeddings (the spec's end-to-end
scenario 2). -/
def demoIndex : VectorIndex :=
  [{ vector := [10, 0], text := "A" }, { vector := [0, 10], text := "B" },
   { vector := [10, 10], text := "C" }]

/-- A state whose knowledge base is ready. -/
def readyState : AppState :=
  { total_requests_count := 0, vector_db := some demoIndex }

/-- An oracle whose collaborators always succeed. -/
def stubOracle : Oracle :=
  { similarity_search := fun _ _ => .ok [], chat_completion := fun _ _ => .ok "ok" }

/-- An oracle returning documents with edge whitespace. -/
def wsOracle : Oracle :=
  { similarity_search := fun _ _ => .ok [{ page_content := " a " }, { page_content := "b" }],
    chat_completion := fun _ _ => .ok "ответ" }

/-- An oracle whose similarity search raises. -/
def failSearchOracle : Oracle :=
  { similarity_search := fun _ _ => .error "boom", chat_completion := fun _ _ => .ok "ok" }

/-- An oracle whose chat completion raises. -/
def failGenOracle : Oracle :=
  { similarity_search := fun _ _ => .ok [{ page_content := "x" }],
    chat_completion := fun _ _ => .error "llm down" }

/-- An HTTP client returning 200 for every URL. -/
def stubHttp : String → HttpResponse := fun _ => { status := 200, text := "document text" }

/-- An HTTP client returning 404 for every URL. -/
def failHttp : String → HttpResponse := fun _ => { status := 404, text := "not found" }

/-! ## Helper lemmas -/

/-- Every branch of `ask_expert` leaves behind the same state: the
counter incremented by one, everything else untouched. -/
lemma ask_expert_state (s : AppState) (o : Oracle) (q : String) :
    (ask_expert s o q).state = { s with total_requests_count := s.total_requests_count + 1 } := by
  unfold ask_expert
  cases hdb : s.vector_db with
  | none => rfl
  | some db =>
    cases hs : o.similarity_search q 4 with
    | error e => rfl
    | ok docs =>
      cases hg : o.chat_completion system_prompt (mkUserPrompt (contextOf docs) q) with
      | error e => simp [hg]
      | ok ans => simp [hg]

/-- `ask_expert` never writes `vector_db`. -/
lemma ask_expert_vector_db (s : AppState) (o : Oracle) (q : String) :
    (ask_expert s o q).state.vector_db = s.vector_db := by
  rw [ask_expert_state]

/-- The counter after one request. -/
lemma step_counter (o : Oracle) (s : AppState) (r : Request) :
    (step o s r).total_requests_count =
      s.total_requests_count + (if r.isAsk then 1 else 0) := by
  cases r with
  | root => simp [step, root_page, Request.isAsk]
  | stats => simp [step, get_stats, Request.isAsk]
  | ask q => simp [step, ask_expert_state, Request.isAsk]

/-- `vector_db` after one request. -/
lemma step_vector_db (o : Oracle) (s : AppState) (r : Request) :
    (step o s r).vector_db = s.vector_db := by
  cases r with
  | root => rfl
  | stats => rfl
  | ask q => exact ask_expert_vector_db s o q

/-- The counter after a request sequence: it grows by exactly the
number of `/ask` requests served. -/
lemma run_counter (o : Oracle) (reqs : List Request) :
    ∀ s : AppState, (run o s reqs).total_requests_count =
      s.total_requests_count + reqs.countP Request.isAsk := by
  induction reqs with
  | nil => intro s; simp [run]
  | cons r rs ih =>
    intro s
    have h1 : run o s (r :: rs) = run o (step o s r) rs := rfl
    rw [h1, ih, step_counter]
    rw [List.countP_cons]
    cases hr : r.isAsk with
    | false => simp [hr]
    | true => simp [hr]; omega

/-- `vector_db` is untouched by any request sequence. -/
lemma run_vector_db (o : Oracle) (reqs : List Request) :
    ∀ s : AppState, (run o s reqs).vector_db = s.vector_db := by
  induction reqs with
  | nil => intro s; rfl
  | cons r rs ih =>
    intro s
    have h1 : run o s (r :: rs) = run o (step o s r) rs := rfl
    rw [h1, ih, step_vector_db]

/-! ## Claim theorems -/

/-- C1: whenever the knowledge base is not ready (`vector_db` is
`None`), `ask_expert` rejects the request with the distinct HTTP 503
"service unavailable" signal and performs neither a similarity query
against the absent index nor a generation call. -/
theorem ask_rejects_when_not_ready (n : Nat) (o : Oracle) (q : String) :
    ask_expert { total_requests_count := n, vector_db := none } o q =
      { state := { total_requests_count := n + 1, vector_db := none },
        response := AskResponse.httpError 503 "База знаний еще загружается",
        searchCall := none, genCall := none } := rfl

set_option maxRecDepth 16384 in
/-- C2 (counterexample): the context handed to the generation call is
not the plain blank-line join of the retrieved chunks' text — the code
strips each chunk's text first.  With retrieved texts `" a "` and
`"b"`, the generated user prompt carries `"a\n\nb"`, not `" a \n\nb"`. -/
theorem ask_context_join_counterexample :
    (ask_expert readyState wsOracle "q").genCall =
      some (system_prompt,
        mkUserPrompt (contextOf [{ page_content := " a " }, { page_content := "b" }]) "q") ∧
    contextOf [{ page_content := " a " }, { page_content := "b" }] = "a\n\nb" ∧
    contextSpecJoin [{ page_content := " a " }, { page_content := "b" }] = " a \n\nb" ∧
    (ask_expert readyState wsOracle "q").genCall ≠
      some (system_prompt,
        mkUserPrompt (contextSpecJoin [{ page_content := " a " }, { page_content := "b" }]) "q") := by
  refine ⟨by decide, by decide, by decide, by decide⟩

/-- C2 (amended): for every ask request against a ready index whose
similarity search (which embeds the question internally) succeeds, the
search is invoked with `k = 4` and the context handed to the generation
call is the retrieved chunks' text, each stripped of leading and
trailing whitespace, joined in nearest-first order separated by a blank
line. -/
theorem ask_context_trimmed_join (s : AppState) (o : Oracle) (q : String)
    (db : VectorIndex) (docs : List Doc)
    (hdb : s.vector_db = some db) (hs : o.similarity_search q 4 = Except.ok docs) :
    (ask_expert s o q).searchCall = some (q, 4) ∧
    (ask_expert s o q).genCall = some (system_prompt, mkUserPrompt (contextOf docs) q) ∧
    contextOf docs =
      String.intercalate "\n\n" (docs.map (fun d => pyStrip d.page_content)) := by
  refine ⟨?_, ?_, rfl⟩ <;>
  · cases hg : o.chat_completion system_prompt (mkUserPrompt (contextOf docs) q) with
    | error e => simp [ask_expert, hdb, hs, hg]
    | ok ans => simp [ask_expert, hdb, hs, hg]

/-- C2 (witness for the amended theorem). -/
theorem ask_context_trimmed_join_witness :
    (ask_expert readyState wsOracle "q").searchCall = some ("q", 4) ∧
    (ask_expert readyState wsOracle "q").genCall =
      some (system_prompt,
        mkUserPrompt (contextOf [{ page_content := " a " }, { page_content := "b" }]) "q") ∧
    contextOf [{ page_content := " a " }, { page_content := "b" }] =
      String.intercalate "\n\n"
        (([{ page_content := " a " }, { page_content := "b" }] : List Doc).map
          (fun d => pyStrip d.page_content)) :=
  ask_context_trimmed_join readyState wsOracle "q" demoIndex
    [{ page_content := " a " }, { page_content := "b" }] rfl rfl

/-- C3: any exception in the startup build is caught and logged, the
process continues with the state (hence `vector_db`) untouched — from
the initial state the index stays unset — while the errors of the ask
path are never swallowed: a failing similarity search or a failing
generation call each surface in the HTTP 500 response detail. -/
theorem startup_exception_caught_logged_nonfatal
    (e msg q : String) (s t : AppState) (o : Oracle) (db : VectorIndex)
    (hdb : t.vector_db = some db) :
    (lifespan_startup (Except.error e) s).state = s ∧
    (lifespan_startup (Except.error e) s).loggedError = some e ∧
    (lifespan_startup (Except.error e) initialState).state.vector_db = none ∧
    (o.similarity_search q 4 = Except.error msg →
      (ask_expert t o q).response =
        AskResponse.httpError 500 ("Ошибка обработки: " ++ msg)) ∧
    (∀ docs, o.similarity_search q 4 = Except.ok docs →
      o.chat_completion system_prompt (mkUserPrompt (contextOf docs) q) = Except.error msg →
      (ask_expert t o q).response =
        AskResponse.httpError 500 ("Ошибка обработки: " ++ msg)) := by
  refine ⟨rfl, rfl, rfl, ?_, ?_⟩
  · intro h
    simp [ask_expert, hdb, h]
  · intro docs h1 h2
    simp [ask_expert, hdb, h1, h2]

/-- C3 (witness). -/
theorem startup_exception_caught_logged_nonfatal_witness :
    (lifespan_startup (Except.error "fetch failed") initialState).state = initialState ∧
    (lifespan_startup (Except.error "fetch failed") initialState).loggedError =
      some "fetch failed" ∧
    (ask_expert readyState failSearchOracle "q").response =
      AskResponse.httpError 500 ("Ошибка обработки: " ++ "boom") := by
  have h := startup_exception_caught_logged_nonfatal "fetch failed" "boom" "q"
    initialState readyState failSearchOracle demoIndex rfl
  exact ⟨h.1, h.2.1, h.2.2.2.1 rfl⟩

/-- C4: every ask request increments the counter by exactly one before
the readiness check — in particular a request rejected with 503 because
the knowledge base is absent is still counted. -/
theorem ask_counts_every_request (s : AppState) (o : Oracle) (q : String) (n : Nat) :
    (ask_expert s o q).state.total_requests_count = s.total_requests_count + 1 ∧
    (ask_expert { total_requests_count := n, vector_db := none } o q).state.total_requests_count
      = n + 1 ∧
    (ask_expert { total_requests_count := n, vector_db := none } o q).response =
      AskResponse.httpError 503 "База знаний еще загружается" := by
  refine ⟨?_, rfl, rfl⟩
  rw [ask_expert_state]

/-- C5: the startup build runs the chunker with the fixed parameters
chunk size 1000 and overlap 200, then the embedder on exactly those
chunks, then the index build pairing each chunk with its vector — and
`chunk_size`/`chunk_overlap` are the program's only chunking
configuration, fixed at those values. -/
theorem startup_build_fixed_chunk_params :
    chunk_size = 1000 ∧ chunk_overlap = 200 ∧
    ∀ (splitter : Nat → Nat → String → List String)
      (embedAll : List String → Except String (List Vec)) (raw : String),
      startupBuild splitter (Except.ok raw) embedAll =
        match embedAll (splitter 1000 200 raw) with
        | Except.error e => Except.error e
        | Except.ok vecs =>
            Except.ok ((vecs.zip (splitter 1000 200 raw)).map
              (fun p => { vector := p.1, text := p.2 })) := by
  refine ⟨rfl, rfl, ?_⟩
  intro splitter embedAll raw
  cases h : embedAll (splitter 1000 200 raw) with
  | error e => simp only [startupBuild, chunk_size, chunk_overlap, h]
  | ok vecs => simp only [startupBuild, chunk_size, chunk_overlap, h]

/-- C6: against a ready index, a failure of the similarity search or of
the generation call surfaces to the caller as HTTP 500 with the generic
"processing error" detail, aborts only that request (nothing but the
request counter changes), and is not retried (each collaborator is
invoked at most once, as the complete outcome record shows). -/
theorem ask_failure_surfaces_500 (s : AppState) (o : Oracle) (q e : String)
    (db : VectorIndex) (hdb : s.vector_db = some db) :
    (o.similarity_search q 4 = Except.error e →
      ask_expert s o q =
        { state := { s with total_requests_count := s.total_requests_count + 1 },
          response := AskResponse.httpError 500 ("Ошибка обработки: " ++ e),
          searchCall := some (q, 4), genCall := none }) ∧
    (∀ docs, o.similarity_search q 4 = Except.ok docs →
      o.chat_completion system_prompt (mkUserPrompt (contextOf docs) q) = Except.error e →
      ask_expert s o q =
        { state := { s with total_requests_count := s.total_requests_count + 1 },
          response := AskResponse.httpError 500 ("Ошибка обработки: " ++ e),
          searchCall := some (q, 4),
          genCall := some (system_prompt, mkUserPrompt (contextOf docs) q) }) := by
  constructor
  · intro h
    simp [ask_expert, hdb, h]
  · intro docs h1 h2
    simp [ask_expert, hdb, h1, h2]

/-- C6 (witness). -/
theorem ask_failure_surfaces_500_witness :
    ask_expert readyState failSearchOracle "q" =
      { state := { readyState with
          total_requests_count := readyState.total_requests_count + 1 },
        response := AskResponse.httpError 500 ("Ошибка обработки: " ++ "boom"),
        searchCall := some ("q", 4), genCall := none } :=
  (ask_failure_surfaces_500 readyState failSearchOracle "q" "boom" demoIndex rfl).1 rfl

/-- C7: the k-nearest-neighbour query is deterministic — any two
results satisfying the query characterisation (all index keys in some
nearest-first order with insertion-order tie-break, truncated to `k`)
for the same index and query vector are equal, and the brute-force
`querySortedKeys` satisfies the characterisation. -/
theorem query_result_deterministic (idx : VectorIndex) (v : Vec) (k : Nat)
    (res₁ res₂ : List (ℤ × Nat))
    (h₁ : QuerySpec idx v k res₁) (h₂ : QuerySpec idx v k res₂) :
    res₁ = res₂ ∧ QuerySpec idx v k (querySortedKeys idx v k) := by
  obtain ⟨f₁, hp₁, hs₁, hr₁⟩ := h₁
  obtain ⟨f₂, hp₂, hs₂, hr₂⟩ := h₂
  have hpp : List.Perm f₁ f₂ := hp₁.trans hp₂.symm
  have hf : f₁ = f₂ := List.eq_of_perm_of_sorted hpp hs₁ hs₂
  refine ⟨by rw [hr₁, hr₂, hf], ?_⟩
  exact ⟨(keysFor idx v).insertionSort keyLE,
    List.perm_insertionSort keyLE (keysFor idx v),
    List.sorted_insertionSort keyLE (keysFor idx v), rfl⟩

/-- The full nearest-first key ordering of `demoIndex` for the query
vector `[9, 1]` (the spec's end-to-end scenario 2, scaled by ten). -/
def demoFull : List (ℤ × Nat) := [(2, 0), (82, 2), (162, 1)]

/-- The two nearest keys of that query. -/
def demoRes : List (ℤ × Nat) := [(2, 0), (82, 2)]

/-- The query vector of the spec's end-to-end scenario 2 (scaled). -/
def demoQueryVec : Vec := [9, 1]

/-- C7 (witness). -/
theorem query_result_deterministic_witness :
    demoRes = demoRes ∧
    QuerySpec demoIndex demoQueryVec 2 (querySortedKeys demoIndex demoQueryVec 2) :=
  query_result_deterministic demoIndex demoQueryVec 2 demoRes demoRes
    ⟨demoFull, by decide, by decide, by decide⟩
    ⟨demoFull, by decide, by decide, by decide⟩

/-- C8: query-time operations are read-only with respect to the vector
index: `ask_expert` leaves `vector_db` unchanged, `/stats` and the
landing page leave the whole state unchanged, and any sequence of
requests leaves `vector_db` exactly as the startup build left it. -/
theorem queries_readonly_index (s : AppState) (o : Oracle) (q : String)
    (reqs : List Request) :
    (ask_expert s o q).state.vector_db = s.vector_db ∧
    (get_stats s).2 = s ∧
    (root_page s).2 = s ∧
    (run o s reqs).vector_db = s.vector_db :=
  ⟨ask_expert_vector_db s o q, rfl, rfl, run_vector_db o reqs s⟩

/-- C9: when the URL has no `/d/<id>` segment, `load_document_text`
raises `ValueError` without any network request; when it has one, the
first matching id is extracted, exactly its plain-text export URL is
fetched, an HTTP status ≥ 400 raises, and otherwise the response body
is returned. -/
theorem load_document_text_spec (http : String → HttpResponse) (url : String) :
    (findDocId url.toList = none →
      load_document_text http url =
        { result := .error (.valueError "Некорректная ссылка на Google Doc"),
          fetchedUrl := none }) ∧
    (∀ idChars, findDocId url.toList = some idChars →
      (load_document_text http url).fetchedUrl =
        some (exportUrlFor (String.mk idChars)) ∧
      (400 ≤ (http (exportUrlFor (String.mk idChars))).status →
        (load_document_text http url).result =
          .error (.httpStatusError (http (exportUrlFor (String.mk idChars))).status)) ∧
      ((http (exportUrlFor (String.mk idChars))).status < 400 →
        (load_document_text http url).result =
          .ok (http (exportUrlFor (String.mk idChars))).text)) := by
  constructor
  · intro h
    simp only [load_document_text, h]
  · intro idChars h
    refine ⟨?_, ?_, ?_⟩
    · simp only [load_document_text, h]
      by_cases hst : 400 ≤ (http (exportUrlFor (String.mk idChars))).status
      · rw [if_pos hst]
      · rw [if_neg hst]
    · intro hst
      simp only [load_document_text, h]
      rw [if_pos hst]
    · intro hst
      simp only [load_document_text, h]
      rw [if_neg (Nat.not_le.mpr hst)]

/-- C9 (witness). -/
theorem load_document_text_spec_witness :
    load_document_text stubHttp "https://example.com/doc" =
      { result := .error (.valueError "Некорректная ссылка на Google Doc"),
        fetchedUrl := none } ∧
    (load_document_text stubHttp "https://docs.google.com/document/d/ABC-12_3").fetchedUrl =
      some (exportUrlFor "ABC-12_3") ∧
    (load_document_text stubHttp "https://docs.google.com/document/d/ABC-12_3").result =
      .ok "document text" ∧
    (load_document_text failHttp "https://docs.google.com/document/d/ABC-12_3").result =
      .error (.httpStatusError 404) := by
  refine ⟨(load_document_text_spec stubHttp "https://example.com/doc").1 (by decide),
    ?_, ?_, ?_⟩
  · exact ((load_document_text_spec stubHttp
      "https://docs.google.com/document/d/ABC-12_3").2 "ABC-12_3".toList (by decide)).1
  · exact ((load_document_text_spec stubHttp
      "https://docs.google.com/document/d/ABC-12_3").2 "ABC-12_3".toList
        (by decide)).2.2 (by decide)
  · exact ((load_document_text_spec failHttp
      "https://docs.google.com/document/d/ABC-12_3").2 "ABC-12_3".toList
        (by decide)).2.1 (by decide)

/-- C10: the request counter starts at 0, the landing page and `/stats`
read it without changing any state, each request adds one exactly when
it is an `/ask` request (whatever its outcome), a request sequence adds
the number of its `/ask` requests, and the counter never decreases. -/
theorem request_counter_monotone (o : Oracle) (s : AppState) (r : Request)
    (reqs : List Request) :
    initialState.total_requests_count = 0 ∧
    (root_page s).1 = s.total_requests_count ∧ (root_page s).2 = s ∧
    (get_stats s).1 = s.total_requests_count ∧ (get_stats s).2 = s ∧
    (step o s r).total_requests_count =
      s.total_requests_count + (if r.isAsk then 1 else 0) ∧
    (run o s reqs).total_requests_count =
      s.total_requests_count + reqs.countP Request.isAsk ∧
    s.total_requests_count ≤ (run o s reqs).total_requests_count := by
  refine ⟨rfl, rfl, rfl, rfl, rfl, step_counter o s r, run_counter o reqs s, ?_⟩
  rw [run_counter]
  exact Nat.le_add_right _ _

end NeuroAvia
